import Mathlib

/-!
Shallow embedding of `nav2_smac_planner/src/node_lattice.cpp` (state-lattice
vertex, motion-primitive table and heuristic engine) together with proofs of
the specification's claims about it.

Modelling conventions:
* C++ `float`/`double` values are modelled as `ℚ`; floating-point rounding is
  abstracted away.  `std::numeric_limits<float>::max()` is modelled by the
  exact constant `floatMax`; the quiet-NaN sentinel used for an uncomputed
  cell cost is modelled by `Option ℚ` with `none` playing the role of NaN.
* Heading bins (`Coordinates.theta`, stored as `float` in the source but
  always an integral bin value) are modelled as `ℤ`.
* External collaborators that are not part of this repository (the OMPL
  Dubins/Reeds-Shepp state spaces, the costmap collision checker, the
  obstacle-heuristic field, `cos`/`sin` of the C math library, and the parsed
  JSON contents of the control-set file) are passed in as explicit function
  or data parameters, exactly at the interface the source uses them.
* Mutation of the process-wide static table is modelled by explicit state
  passing: functions that mutate state return the updated structure.
-/

/-- Poses handed to the curvature-distance oracle: (x, y, continuous angle). -/
abbrev Pose : Type := ℚ × ℚ × ℚ

/-- C library `round`: round half away from zero, as used on the rotated
relative coordinates in `getDistanceHeuristic`. -/
def roundAway (q : ℚ) : ℤ :=
  if q < 0 then -⌊-q + 1/2⌋ else ⌊q + 1/2⌋

/-- Reading `table[i]` for an `int` index into a `std::vector<float>`.  A
negative index is undefined behaviour in the source; we return 0 there, and
likewise past the end of the vector. -/
def tableGet (l : List ℚ) (i : ℤ) : ℚ :=
  if i < 0 then 0 else l.getD i.toNat 0

/-- Model of `std::numeric_limits<float>::max()` (the "unreached" sentinel the
spec calls +∞), i.e. (2 − 2⁻²³)·2¹²⁷. -/
def floatMax : ℚ := 2 ^ 128 - 2 ^ 104

/-- Continuous map-cell coordinates with a heading bin.  The source stores
`theta` as `float` but it always carries an integral heading-bin value
(spec §3); we model it as `ℤ`. -/
structure Coordinates where
  x : ℚ
  y : ℚ
  theta : ℤ
  deriving DecidableEq

/-- One intermediate pose of a motion primitive (`MotionPose` in the source). -/
structure MotionPose where
  px : ℚ
  py : ℚ
  ptheta : ℚ
  deriving DecidableEq

/-- A motion primitive as parsed from the control-set file. -/
structure MotionPrimitive where
  trajectory_id : ℕ
  start_angle : ℚ
  end_angle : ℚ
  poses : List MotionPose
  deriving DecidableEq

/-- Lattice metadata parsed from the control-set file. -/
structure LatticeMetadata where
  number_of_headings : ℕ
  heading_angles : List ℚ
  grid_resolution : ℚ
  min_turning_radius : ℚ
  deriving DecidableEq

/-- Parsed contents of a control-set file (the JSON document): metadata plus
the primitive array.  Parsing itself (nlohmann::json) is external. -/
structure LatticeFile where
  metadata : LatticeMetadata
  primitives : List MotionPrimitive
  deriving DecidableEq

/-- Which OMPL state space `motion_table.state_space` holds. -/
inductive StateSpaceKind where
  | dubins
  | reedsShepp
  deriving DecidableEq

/-- Search configuration (`SearchInfo`) fields consumed by this file. -/
structure SearchInfo where
  change_penalty : ℚ
  non_straight_penalty : ℚ
  cost_penalty : ℚ
  reverse_penalty : ℚ
  minimum_turning_radius : ℚ
  lattice_filepath : String
  allow_reverse_expansion : Bool
  deriving DecidableEq

/-- The process-wide `LatticeMotionTable`. -/
structure LatticeMotionTable where
  size_x : ℕ
  change_penalty : ℚ
  non_straight_penalty : ℚ
  cost_penalty : ℚ
  reverse_penalty : ℚ
  current_lattice_filepath : String
  allow_reverse_expansion : Bool
  lattice_metadata : LatticeMetadata
  num_angle_quantization : ℕ
  state_space : Option StateSpaceKind
  motion_primitives : List (List MotionPrimitive)
  trig_values : List (ℚ × ℚ)
  deriving DecidableEq

/-- A lattice vertex (`NodeLattice`).  `parent` is the non-owning backtrace
link, modelled as an index per the spec's arena-and-index note; `cell_cost`
is `none` while it holds the quiet-NaN sentinel. -/
structure NodeLattice where
  parent : Option ℕ
  pose : Coordinates
  cell_cost : Option ℚ
  accumulated_cost : ℚ
  node_index : ℕ
  was_visited : Bool
  motion_primitive_index : ℕ
  deriving DecidableEq

/-- Constructor `NodeLattice::NodeLattice(index)`. -/
def NodeLattice.init (index : ℕ) : NodeLattice where
  parent := none
  pose := ⟨0, 0, 0⟩
  cell_cost := none
  accumulated_cost := floatMax
  node_index := index
  was_visited := false
  motion_primitive_index := 0

/-- Method `NodeLattice::reset()`. -/
def NodeLattice.reset (n : NodeLattice) : NodeLattice :=
  { n with
    parent := none
    cell_cost := none
    accumulated_cost := floatMax
    was_visited := false
    pose := ⟨0, 0, 0⟩ }

/-- The external `GridCollisionChecker` at the interface this file consumes:
`inCollision(x, y, angle_bin, traverse_unknown)` and `getCost()`.  In the
source `getCost` returns the cost of the most recently checked cell;
`isNodeValid` checks exactly one cell, so we model `getCost` as a pure
function of that queried pose. -/
structure GridCollisionChecker where
  inCollision : ℚ → ℚ → ℤ → Bool → Bool
  getCost : ℚ → ℚ → ℤ → ℚ

/-- Method `NodeLattice::isNodeValid`.  Returns the C++ return value together
with the (possibly updated) vertex. -/
def NodeLattice.isNodeValid (n : NodeLattice) (traverse_unknown : Bool)
    (collision_checker : GridCollisionChecker) : Bool × NodeLattice :=
  if collision_checker.inCollision n.pose.x n.pose.y n.pose.theta traverse_unknown then
    (false, n)
  else
    (true, { n with
      cell_cost := some (collision_checker.getCost n.pose.x n.pose.y n.pose.theta) })

/-- Method `NodeLattice::getTraversalCost` (verbatim `return 0.0;` in the
source, with a TODO about angle/backwards/distance penalties). -/
def NodeLattice.getTraversalCost (_n _child : NodeLattice) : ℚ := 0

/-- Method `LatticeMotionTable::getAngleFromBin` (`heading_angles[bin_idx]`). -/
def LatticeMotionTable.getAngleFromBin (tbl : LatticeMotionTable) (bin_idx : ℕ) : ℚ :=
  tbl.lattice_metadata.heading_angles.getD bin_idx 0

/-- Projection of one motion primitive from a vertex, as in both loops of
`getMotionPrimitives`: take the primitive's last pose (`poses.back()`), divide
its offset by the grid resolution and add the vertex position; the third
component is the primitive's ending angular bin. -/
def LatticeMotionTable.projectPrimitive (tbl : LatticeMotionTable) (node : NodeLattice)
    (p : MotionPrimitive) : MotionPose :=
  let end_pose := p.poses.getLastD ⟨0, 0, 0⟩
  ⟨node.pose.x + end_pose.px / tbl.lattice_metadata.grid_resolution,
   node.pose.y + end_pose.py / tbl.lattice_metadata.grid_resolution,
   p.end_angle⟩

/-- The reverse-heading computation of `getMotionPrimitives` (lines 133–139):
`theta - num_angle_quantization / 2` (unsigned division), then `+ N` when
negative and `- N` when above `N`. -/
def reserveHeading (theta : ℤ) (num_angle_quantization : ℕ) : ℤ :=
  let r0 : ℤ := theta - (num_angle_quantization / 2 : ℕ)
  let r1 : ℤ := if r0 < 0 then r0 + num_angle_quantization else r0
  if r1 > (num_angle_quantization : ℤ) then r1 - num_angle_quantization else r1

/-- Method `LatticeMotionTable::getMotionPrimitives`.  The source takes a
non-const C++ reference `prims_at_heading` to `motion_primitives[theta]` and,
in the reverse-expansion branch, executes
`prims_at_heading = motion_primitives[reserve_heading];` — a copy assignment
through the reference, so the bucket at the vertex's own heading is
overwritten with the reverse bucket's contents.  We model this by returning
the projected pose list together with the table as it is left afterwards. -/
def LatticeMotionTable.getMotionPrimitives (tbl : LatticeMotionTable)
    (node : NodeLattice) : List MotionPose × LatticeMotionTable :=
  let t : ℕ := node.pose.theta.toNat
  let prims_at_heading := tbl.motion_primitives.getD t []
  let fwd := prims_at_heading.map (tbl.projectPrimitive node)
  if tbl.allow_reverse_expansion then
    let r2 : ℤ := reserveHeading node.pose.theta tbl.num_angle_quantization
    let rprims := tbl.motion_primitives.getD r2.toNat []
    (fwd ++ rprims.map (tbl.projectPrimitive node),
      { tbl with motion_primitives := tbl.motion_primitives.set t rprims })
  else
    (fwd, tbl)

/-- For a heading bin in range and an even bin count, the source's
reverse-heading computation lands on the diametrically opposite bin. -/
theorem reserveHeading_opposite (t N : ℕ) (htN : t < N) (heven : N % 2 = 0) :
    (reserveHeading (t : ℤ) N).toNat = (t + N / 2) % N := by
  unfold reserveHeading
  simp only []
  have hmod : (t + N / 2) % N = if t + N / 2 < N then t + N / 2 else t + N / 2 - N := by
    split_ifs with h
    · exact Nat.mod_eq_of_lt h
    · rw [Nat.mod_eq_sub_mod (by omega), Nat.mod_eq_of_lt (by omega)]
  rw [hmod]
  split_ifs <;> omega

/-- The grouping loop of `initMotionModel` (lines 87–101): scan the primitive
array, starting a new bucket whenever the start angle differs from the
previous one (`prev_start_angle` starts at 0.0, so an initial primitive with
a nonzero start angle closes an empty first bucket). -/
def groupPrimitives (prims : List MotionPrimitive) : List (List MotionPrimitive) :=
  let final := prims.foldl
    (fun (st : ℚ × List MotionPrimitive × List (List MotionPrimitive)) p =>
      if st.1 ≠ p.start_angle then
        (p.start_angle, [p], st.2.2 ++ [st.2.1])
      else
        (st.1, st.2.1 ++ [p], st.2.2))
    (0, [], [])
  final.2.2 ++ [final.2.1]

/-- Method `LatticeMotionTable::initMotionModel`.  External pieces are
parameters: `fs` models opening and parsing the control-set file (`none` when
the file cannot be opened, in which case the source throws, modelled as
`none`); `trig` models the C library's (cos, sin).  Note the source assigns
`size_x` before the early-return path check, appends (rather than replaces)
`motion_primitives` buckets and `trig_values`, and only constructs the state
space when none exists yet. -/
def LatticeMotionTable.initMotionModel (fs : String → Option LatticeFile)
    (trig : ℚ → ℚ × ℚ) (tbl : LatticeMotionTable) (size_x_in : ℕ)
    (search_info : SearchInfo) : Option LatticeMotionTable :=
  let tbl := { tbl with size_x := size_x_in }
  if tbl.current_lattice_filepath = search_info.lattice_filepath then
    some tbl
  else
    match fs search_info.lattice_filepath with
    | none => none
    | some file =>
      let md := file.metadata
      let ss := match tbl.state_space with
        | some s => some s
        | none =>
          if search_info.allow_reverse_expansion then some StateSpaceKind.reedsShepp
          else some StateSpaceKind.dubins
      some { tbl with
        change_penalty := search_info.change_penalty
        non_straight_penalty := search_info.non_straight_penalty
        cost_penalty := search_info.cost_penalty
        reverse_penalty := search_info.reverse_penalty
        current_lattice_filepath := search_info.lattice_filepath
        allow_reverse_expansion := search_info.allow_reverse_expansion
        lattice_metadata := md
        num_angle_quantization := md.number_of_headings
        state_space := ss
        motion_primitives := tbl.motion_primitives ++ groupPrimitives file.primitives
        trig_values := tbl.trig_values ++ md.heading_angles.map trig }

/-- The goal-relative rotated coordinates of `getDistanceHeuristic` (lines
275–292): de-rotate by the goal heading using the cached (cos, sin) of the
goal's bin (`sin_th` negated), translate by the goal position, round, and wrap
the heading-bin difference (`+ N` when negative, `- N` when above `N`).  The
source applies `round` to `dtheta_bin` as well; `theta` is modelled as `ℤ` so
that round is the identity and is omitted. -/
def NodeLattice.relativeCoords (tbl : LatticeMotionTable)
    (node_coords goal_coords : Coordinates) : ℤ × ℤ × ℤ :=
  let trig_vals := tbl.trig_values.getD goal_coords.theta.toNat (1, 0)
  let cos_th := trig_vals.1
  let sin_th := -trig_vals.2
  let dx := node_coords.x - goal_coords.x
  let dy := node_coords.y - goal_coords.y
  let d0 : ℤ := node_coords.theta - goal_coords.theta
  let d1 : ℤ := if d0 < 0 then d0 + (tbl.num_angle_quantization : ℤ) else d0
  let dtheta_bin : ℤ :=
    if d1 > (tbl.num_angle_quantization : ℤ) then d1 - (tbl.num_angle_quantization : ℤ) else d1
  (roundAway (dx * cos_th - dy * sin_th), roundAway (dx * sin_th + dy * cos_th), dtheta_bin)

/-- The in-window lookup of `getDistanceHeuristic` (lines 302–315) as a
function of the relative coordinates: mirror the heading bin
(`num_angle_quantization - theta`) when Y is negative, take `|y|`, and read
the flat index `x_pos * ceiling_size * N + y_pos * N + theta_pos` with
`x_pos = x + floored_size`. -/
def NodeLattice.lookupWindow (num_angle_quantization size_lookup : ℕ)
    (dist_heuristic_lookup_table : List ℚ) (x y theta : ℤ) : ℚ :=
  let floored_size : ℤ := ⌊(size_lookup : ℚ) / 2⌋
  let ceiling_size : ℤ := ⌈(size_lookup : ℚ) / 2⌉
  let theta_pos : ℤ := if y < 0 then (num_angle_quantization : ℤ) - theta else theta
  let x_pos : ℤ := x + floored_size
  let y_pos : ℤ := |y|
  tableGet dist_heuristic_lookup_table
    (x_pos * ceiling_size * (num_angle_quantization : ℤ) +
      y_pos * (num_angle_quantization : ℤ) + theta_pos)

/-- Method `NodeLattice::getDistanceHeuristic`.  The static lookup table, its
configured dimension and the OMPL `state_space->distance` oracle are passed
explicitly (`dist` receives the two absolute poses, angles resolved through
`getAngleFromBin`, `from` first as in the source). -/
def NodeLattice.getDistanceHeuristic (tbl : LatticeMotionTable) (size_lookup : ℕ)
    (dist_heuristic_lookup_table : List ℚ) (dist : Pose → Pose → ℚ)
    (node_coords goal_coords : Coordinates) (obstacle_heuristic : ℚ) : ℚ :=
  let rel := NodeLattice.relativeCoords tbl node_coords goal_coords
  let floored_size : ℤ := ⌊(size_lookup : ℚ) / 2⌋
  let mirrored_relative_y : ℤ := |rel.2.1|
  if |rel.1| < floored_size ∧ mirrored_relative_y < floored_size then
    NodeLattice.lookupWindow tbl.num_angle_quantization size_lookup
      dist_heuristic_lookup_table rel.1 rel.2.1 rel.2.2
  else if obstacle_heuristic = 0 then
    dist (node_coords.x, node_coords.y, tbl.getAngleFromBin node_coords.theta.toNat)
      (goal_coords.x, goal_coords.y, tbl.getAngleFromBin goal_coords.theta.toNat)
  else 0

/-- Method `NodeLattice::getHeuristicCost`.  `getObstacleHeuristic` lives
outside this translation unit and is passed in, as is everything
`getDistanceHeuristic` consumes. -/
def NodeLattice.getHeuristicCost (getObstacleHeuristic : Coordinates → Coordinates → ℚ)
    (tbl : LatticeMotionTable) (size_lookup : ℕ) (dist_heuristic_lookup_table : List ℚ)
    (dist : Pose → Pose → ℚ) (node_coords goal_coords : Coordinates) : ℚ :=
  let obstacle_heuristic := getObstacleHeuristic node_coords goal_coords
  let distance_heuristic := NodeLattice.getDistanceHeuristic tbl size_lookup
    dist_heuristic_lookup_table dist node_coords goal_coords obstacle_heuristic
  max obstacle_heuristic distance_heuristic

/-- The x offsets enumerated by the precompute loop (line 360):
`ceil(-size_lookup / 2)` up to `floor(size_lookup / 2)` in steps of one. -/
def xOffsets (size_lookup : ℕ) : List ℤ :=
  let lo : ℤ := ⌈-(size_lookup : ℚ) / 2⌉
  let hi : ℤ := ⌊(size_lookup : ℚ) / 2⌋
  (List.range (hi - lo + 1).toNat).map (fun (i : ℕ) => lo + (i : ℤ))

/-- The y offsets enumerated by the precompute loop (line 361): `0` up to
`floor(size_lookup / 2)`. -/
def yOffsets (size_lookup : ℕ) : List ℤ :=
  (List.range (⌊(size_lookup : ℚ) / 2⌋.toNat + 1)).map (fun (i : ℕ) => (i : ℤ))

/-- Method `NodeLattice::precomputeDistanceHeuristic` (lines 345–371): the
nested x/y/heading loop writing consecutive entries of the lookup table.  The
Dubins/Reeds-Shepp state-space construction from `search_info` (lines
337–343) is external OMPL; the chosen space's `distance` enters as the `dist`
parameter, and `size_lookup` is set to `lookup_table_dim` (the list is
indexed against the same dimension by `getDistanceHeuristic`).  Each entry is
the oracle distance from the offset pose — heading resolved through
`getAngleFromBin` — to the origin pose `(0, 0, 0)`. -/
def NodeLattice.precomputeDistanceHeuristic (dist : Pose → Pose → ℚ)
    (lookup_table_dim : ℕ) (dim_3_size : ℕ) (heading_angles : List ℚ) : List ℚ :=
  (xOffsets lookup_table_dim).flatMap fun x =>
    (yOffsets lookup_table_dim).flatMap fun y =>
      (List.range dim_3_size).map fun heading =>
        dist ((x : ℚ), (y : ℚ), heading_angles.getD heading 0) (0, 0, 0)

/-- CLAIM C7: after `reset()` the accumulated cost is the unreached sentinel
(`std::numeric_limits<float>::max()`, the spec's +∞), the visited flag is
false, the pose is the zero pose and the backtrace link is cleared. -/
theorem reset_spec (n : NodeLattice) :
    (n.reset).accumulated_cost = floatMax ∧
    (n.reset).was_visited = false ∧
    (n.reset).pose = ⟨0, 0, 0⟩ ∧
    (n.reset).parent = none := by
  refine ⟨rfl, rfl, rfl, rfl⟩

/-- CLAIM C8: when the collision oracle reports a collision `isNodeValid`
returns false and leaves the vertex untouched (in particular the cached cell
cost); when it reports no collision it caches the oracle's traversal cost and
returns true. -/
theorem isNodeValid_spec (n : NodeLattice) (tu : Bool) (cc : GridCollisionChecker) :
    (cc.inCollision n.pose.x n.pose.y n.pose.theta tu = true →
      n.isNodeValid tu cc = (false, n)) ∧
    (cc.inCollision n.pose.x n.pose.y n.pose.theta tu = false →
      n.isNodeValid tu cc =
        (true, { n with cell_cost := some (cc.getCost n.pose.x n.pose.y n.pose.theta) })) := by
  constructor
  · intro h
    simp [NodeLattice.isNodeValid, h]
  · intro h
    simp [NodeLattice.isNodeValid, h]

/-- Witness for C8 at a concrete colliding checker and a concrete free
checker. -/
theorem isNodeValid_spec_witness :
    (NodeLattice.init 0).isNodeValid true ⟨fun _ _ _ _ => true, fun _ _ _ => 7⟩ =
      (false, NodeLattice.init 0) ∧
    (NodeLattice.init 0).isNodeValid true ⟨fun _ _ _ _ => false, fun _ _ _ => 7⟩ =
      (true, { NodeLattice.init 0 with cell_cost := some 7 }) := by
  exact ⟨(isNodeValid_spec (NodeLattice.init 0) true
      ⟨fun _ _ _ _ => true, fun _ _ _ => 7⟩).1 rfl,
    (isNodeValid_spec (NodeLattice.init 0) true
      ⟨fun _ _ _ _ => false, fun _ _ _ => 7⟩).2 rfl⟩

/-- CLAIM C10: `getTraversalCost` returns 0 for every child vertex; no
penalty configuration can influence it (the function reads none). -/
theorem getTraversalCost_zero (n child : NodeLattice) :
    NodeLattice.getTraversalCost n child = 0 := rfl

/-- CLAIM C4: with reverse expansion enabled, `getMotionPrimitives` returns
the projections of the primitives at the vertex's own heading bin followed by
the projections of the primitives at the diametrically opposite bin
(`(t + N/2) mod N`), each projected by adding the primitive's final offset
divided by the grid resolution to the vertex position. -/
theorem getMotionPrimitives_reverse_bins (tbl : LatticeMotionTable) (node : NodeLattice)
    (t : ℕ) (ht : node.pose.theta = (t : ℤ)) (htN : t < tbl.num_angle_quantization)
    (heven : tbl.num_angle_quantization % 2 = 0)
    (hrev : tbl.allow_reverse_expansion = true) :
    (tbl.getMotionPrimitives node).1 =
      (tbl.motion_primitives.getD t []).map (tbl.projectPrimitive node) ++
      (tbl.motion_primitives.getD
          ((t + tbl.num_angle_quantization / 2) % tbl.num_angle_quantization) []).map
        (tbl.projectPrimitive node) := by
  simp only [LatticeMotionTable.getMotionPrimitives, hrev, if_true, ht]
  rw [reserveHeading_opposite t tbl.num_angle_quantization htN heven]
  simp

/-- Concrete four-heading table for the C4 witness: distinct single-primitive
buckets per heading, reverse expansion on. -/
def tblC4 : LatticeMotionTable :=
  ⟨0, 0, 0, 0, 0, "l", true, ⟨4, [0, 1, 2, 3], 1, 1⟩, 4, none,
    [[⟨0, 0, 0, [⟨1, 0, 0⟩]⟩], [⟨1, 1, 1, [⟨0, 1, 1⟩]⟩],
     [⟨2, 2, 2, [⟨-1, 0, 2⟩]⟩], [⟨3, 3, 3, [⟨0, -1, 3⟩]⟩]],
    [(1, 0), (0, 1), (-1, 0), (0, -1)]⟩

/-- Concrete vertex at heading bin 0 for the C4 witness. -/
def nodeC4 : NodeLattice := NodeLattice.init 0

/-- Witness for C4: heading-bin count 4, vertex at bin 0; the returned list is
the bin-0 projections followed by the bin-2 projections. -/
theorem getMotionPrimitives_reverse_bins_witness :
    (tblC4.getMotionPrimitives nodeC4).1 =
      (tblC4.motion_primitives.getD 0 []).map (tblC4.projectPrimitive nodeC4) ++
      (tblC4.motion_primitives.getD
          ((0 + tblC4.num_angle_quantization / 2) % tblC4.num_angle_quantization) []).map
        (tblC4.projectPrimitive nodeC4) :=
  getMotionPrimitives_reverse_bins tblC4 nodeC4 0 rfl (by decide) (by decide) rfl

/-- Concrete four-heading table exposing the C5 bug. -/
def tblC5 : LatticeMotionTable :=
  ⟨0, 0, 0, 0, 0, "l", true, ⟨4, [0, 1, 2, 3], 1, 1⟩, 4, none,
    [[⟨0, 0, 0, [⟨1, 0, 0⟩]⟩], [⟨1, 1, 1, [⟨0, 1, 1⟩]⟩],
     [⟨2, 2, 2, [⟨-1, 0, 2⟩]⟩], [⟨3, 3, 3, [⟨0, -1, 3⟩]⟩]],
    [(1, 0), (0, 1), (-1, 0), (0, -1)]⟩

/-- Concrete vertex at heading bin 0 for the C5 failing input. -/
def nodeC5 : NodeLattice := NodeLattice.init 0

/-- CLAIM C5 is violated by the code: with reverse expansion enabled,
`getMotionPrimitives` overwrites the primitive bucket at the vertex's own
heading with the reverse bin's bucket (the C++ reference reassignment at
line 140 copy-assigns through `prims_at_heading`), so the shared table
changes and a repeated expansion from the same vertex returns a different
candidate list. -/
theorem getMotionPrimitives_mutates_table :
    (tblC5.getMotionPrimitives nodeC5).2.motion_primitives ≠ tblC5.motion_primitives ∧
    ((tblC5.getMotionPrimitives nodeC5).2.getMotionPrimitives nodeC5).1 ≠
      (tblC5.getMotionPrimitives nodeC5).1 := by
  constructor
  · decide
  · simp [tblC5, nodeC5, NodeLattice.init, LatticeMotionTable.getMotionPrimitives,
      LatticeMotionTable.projectPrimitive, reserveHeading]

/-- CLAIM C6: a second `initMotionModel` call with the same file system,
trig source and arguments as a successful first call leaves the table
exactly as the first call left it. -/
theorem initMotionModel_idempotent (fs : String → Option LatticeFile)
    (trig : ℚ → ℚ × ℚ) (tbl tbl' : LatticeMotionTable) (sx : ℕ) (si : SearchInfo)
    (h : LatticeMotionTable.initMotionModel fs trig tbl sx si = some tbl') :
    LatticeMotionTable.initMotionModel fs trig tbl' sx si = some tbl' := by
  have hfields : tbl'.current_lattice_filepath = si.lattice_filepath ∧ tbl'.size_x = sx := by
    unfold LatticeMotionTable.initMotionModel at h
    simp only [] at h
    split at h
    · rename_i hc
      obtain rfl : { tbl with size_x := sx } = tbl' := Option.some.inj h
      exact ⟨hc, rfl⟩
    · split at h
      · exact absurd h (by simp)
      · rename_i file hfs
        obtain rfl := Option.some.inj h
        exact ⟨rfl, rfl⟩
  obtain ⟨hpath, hsize⟩ := hfields
  have hupd : { tbl' with size_x := sx } = tbl' := by
    cases tbl'
    simp only at hsize
    simp [hsize]
  unfold LatticeMotionTable.initMotionModel
  simp only []
  rw [hupd, if_pos hpath]

/-- Concrete parsed control-set file for the C6 witness. -/
def fileC6 : LatticeFile := ⟨⟨1, [0], 1, 1⟩, []⟩

/-- Concrete file system for the C6 witness. -/
def fsC6 : String → Option LatticeFile := fun _ => some fileC6

/-- Concrete search configuration for the C6 witness. -/
def siC6 : SearchInfo := ⟨0, 0, 0, 0, 1, "lat.json", false⟩

/-- Fresh motion table (nothing loaded yet) for the C6 witness. -/
def tblC6 : LatticeMotionTable := ⟨0, 0, 0, 0, 0, "", false, ⟨0, [], 1, 0⟩, 0, none, [], []⟩

/-- The table as the first C6 witness call leaves it. -/
def tblC6b : LatticeMotionTable :=
  ⟨5, 0, 0, 0, 0, "lat.json", false, ⟨1, [0], 1, 1⟩, 1, some StateSpaceKind.dubins,
    [[]], [(1, 0)]⟩

/-- Witness for C6: a successful concrete first call, and the second call with
the same arguments returning the table unchanged. -/
theorem initMotionModel_idempotent_witness :
    LatticeMotionTable.initMotionModel fsC6 (fun _ => (1, 0)) tblC6 5 siC6 = some tblC6b ∧
    LatticeMotionTable.initMotionModel fsC6 (fun _ => (1, 0)) tblC6b 5 siC6 = some tblC6b :=
  ⟨by decide,
    initMotionModel_idempotent fsC6 (fun _ => (1, 0)) tblC6 tblC6b 5 siC6 (by decide)⟩

/-- Floor of half a natural number, as natural division. -/
theorem floor_half_nat (s : ℕ) : ⌊(s : ℚ) / 2⌋ = ((s / 2 : ℕ) : ℤ) := by
  have h := Rat.floor_natCast_div_natCast s 2
  simpa using h

/-- Ceiling of half a natural number, as natural division. -/
theorem ceil_half_nat (s : ℕ) : ⌈(s : ℚ) / 2⌉ = (((s + 1) / 2 : ℕ) : ℤ) := by
  rw [show ⌈(s : ℚ) / 2⌉ = -⌊-((s : ℚ) / 2)⌋ by rw [Int.floor_neg, neg_neg]]
  rw [show -((s : ℚ) / 2) = ((-(s : ℤ) : ℤ) : ℚ) / ((2 : ℕ) : ℚ) by push_cast; ring]
  rw [Rat.floor_intCast_div_natCast]
  omega

/-- Ceiling of minus half a natural number, as in the precompute loop start. -/
theorem ceil_neg_half_nat (s : ℕ) : ⌈-(s : ℚ) / 2⌉ = -((s / 2 : ℕ) : ℤ) := by
  rw [neg_div, Int.ceil_neg, floor_half_nat]

/-- The x offsets of the precompute loop run from `-(s / 2)` to `s / 2`. -/
theorem xOffsets_eq (s : ℕ) :
    xOffsets s = (List.range (2 * (s / 2) + 1)).map (fun (i : ℕ) => (i : ℤ) - ((s / 2 : ℕ) : ℤ)) := by
  unfold xOffsets
  simp only [ceil_neg_half_nat, floor_half_nat]
  rw [show (((s / 2 : ℕ) : ℤ) - -((s / 2 : ℕ) : ℤ) + 1).toNat = 2 * (s / 2) + 1 by omega]
  refine List.map_congr_left ?_
  intro i _
  ring

/-- The y offsets of the precompute loop run from `0` to `s / 2`. -/
theorem yOffsets_eq (s : ℕ) :
    yOffsets s = (List.range (s / 2 + 1)).map (fun (i : ℕ) => (i : ℤ)) := by
  unfold yOffsets
  rw [floor_half_nat, Int.toNat_natCast]

/-- CLAIM C9: `getHeuristicCost` is exactly the maximum of the obstacle
heuristic and the distance heuristic computed with that same obstacle
heuristic. -/
theorem getHeuristicCost_is_max (getObstacleHeuristic : Coordinates → Coordinates → ℚ)
    (tbl : LatticeMotionTable) (size_lookup : ℕ) (dist_table : List ℚ)
    (dist : Pose → Pose → ℚ) (node_coords goal_coords : Coordinates) :
    NodeLattice.getHeuristicCost getObstacleHeuristic tbl size_lookup dist_table dist
        node_coords goal_coords =
      max (getObstacleHeuristic node_coords goal_coords)
        (NodeLattice.getDistanceHeuristic tbl size_lookup dist_table dist
          node_coords goal_coords (getObstacleHeuristic node_coords goal_coords)) := rfl

/-- CLAIM C1: three-tier dispatch of `getDistanceHeuristic` — inside the
lookup window it returns the precomputed table value (no oracle call);
outside, with obstacle heuristic exactly zero, it returns the direct oracle
distance between the two absolute poses; otherwise it returns 0. -/
theorem getDistanceHeuristic_dispatch (tbl : LatticeMotionTable) (size_lookup : ℕ)
    (dist_table : List ℚ) (dist : Pose → Pose → ℚ) (node_coords goal_coords : Coordinates)
    (obstacle_heuristic : ℚ) :
    ((|(NodeLattice.relativeCoords tbl node_coords goal_coords).1| < ⌊(size_lookup : ℚ) / 2⌋ ∧
      |(NodeLattice.relativeCoords tbl node_coords goal_coords).2.1| < ⌊(size_lookup : ℚ) / 2⌋) →
      NodeLattice.getDistanceHeuristic tbl size_lookup dist_table dist node_coords goal_coords
          obstacle_heuristic =
        NodeLattice.lookupWindow tbl.num_angle_quantization size_lookup dist_table
          (NodeLattice.relativeCoords tbl node_coords goal_coords).1
          (NodeLattice.relativeCoords tbl node_coords goal_coords).2.1
          (NodeLattice.relativeCoords tbl node_coords goal_coords).2.2) ∧
    (¬(|(NodeLattice.relativeCoords tbl node_coords goal_coords).1| < ⌊(size_lookup : ℚ) / 2⌋ ∧
       |(NodeLattice.relativeCoords tbl node_coords goal_coords).2.1| < ⌊(size_lookup : ℚ) / 2⌋) →
      obstacle_heuristic = 0 →
      NodeLattice.getDistanceHeuristic tbl size_lookup dist_table dist node_coords goal_coords
          obstacle_heuristic =
        dist (node_coords.x, node_coords.y, tbl.getAngleFromBin node_coords.theta.toNat)
          (goal_coords.x, goal_coords.y, tbl.getAngleFromBin goal_coords.theta.toNat)) ∧
    (¬(|(NodeLattice.relativeCoords tbl node_coords goal_coords).1| < ⌊(size_lookup : ℚ) / 2⌋ ∧
       |(NodeLattice.relativeCoords tbl node_coords goal_coords).2.1| < ⌊(size_lookup : ℚ) / 2⌋) →
      obstacle_heuristic ≠ 0 →
      NodeLattice.getDistanceHeuristic tbl size_lookup dist_table dist node_coords goal_coords
          obstacle_heuristic = 0) := by
  refine ⟨fun hin => ?_, fun hout hz => ?_, fun hout hnz => ?_⟩
  · unfold NodeLattice.getDistanceHeuristic
    simp only []
    rw [if_pos hin]
  · unfold NodeLattice.getDistanceHeuristic
    simp only []
    rw [if_neg hout, if_pos hz]
  · unfold NodeLattice.getDistanceHeuristic
    simp only []
    rw [if_neg hout, if_neg hnz]

/-- Concrete single-heading table for the C1 witness. -/
def tblC1 : LatticeMotionTable :=
  ⟨0, 0, 0, 0, 0, "l", false, ⟨1, [0], 1, 1⟩, 1, some StateSpaceKind.dubins,
    [[]], [(1, 0)]⟩

/-- Concrete lookup table for the C1 witness (distinct entries). -/
def dtableC1 : List ℚ := (List.range 15).map (fun i => (i : ℚ))

/-- Concrete oracle for the C1 witness. -/
def distC1 : Pose → Pose → ℚ := fun p q => |p.1 - q.1| + |p.2.1 - q.2.1| + 100

/-- Witness for C1, exercising tier 1 (node at the goal, inside the window)
and tier 2 (node far outside the window with zero obstacle heuristic). -/
theorem getDistanceHeuristic_dispatch_witness :
    NodeLattice.getDistanceHeuristic tblC1 5 dtableC1 distC1 ⟨0, 0, 0⟩ ⟨0, 0, 0⟩ 3 =
      NodeLattice.lookupWindow tblC1.num_angle_quantization 5 dtableC1
        (NodeLattice.relativeCoords tblC1 ⟨0, 0, 0⟩ ⟨0, 0, 0⟩).1
        (NodeLattice.relativeCoords tblC1 ⟨0, 0, 0⟩ ⟨0, 0, 0⟩).2.1
        (NodeLattice.relativeCoords tblC1 ⟨0, 0, 0⟩ ⟨0, 0, 0⟩).2.2 ∧
    NodeLattice.getDistanceHeuristic tblC1 5 dtableC1 distC1 ⟨9, 0, 0⟩ ⟨0, 0, 0⟩ 0 =
      distC1 ((9 : ℚ), (0 : ℚ), tblC1.getAngleFromBin 0)
        ((0 : ℚ), (0 : ℚ), tblC1.getAngleFromBin 0) := by
  constructor
  · exact (getDistanceHeuristic_dispatch tblC1 5 dtableC1 distC1 ⟨0, 0, 0⟩ ⟨0, 0, 0⟩ 3).1
      (by norm_num [NodeLattice.relativeCoords, tblC1, roundAway])
  · exact (getDistanceHeuristic_dispatch tblC1 5 dtableC1 distC1 ⟨9, 0, 0⟩ ⟨0, 0, 0⟩ 0).2.1
      (by norm_num [NodeLattice.relativeCoords, tblC1, roundAway]) rfl

/-- CLAIM C2 (amended): for a nonzero relative Y, the in-window lookup is
mirror-symmetric — querying (x, y, theta) and querying (x, -y,
headingCount - theta) read the same table entry. -/
theorem lookup_mirror_symm_of_y_ne_zero (num_angle_quantization size_lookup : ℕ)
    (dist_table : List ℚ) (x y theta : ℤ) (hy : y ≠ 0) :
    NodeLattice.lookupWindow num_angle_quantization size_lookup dist_table x y theta =
      NodeLattice.lookupWindow num_angle_quantization size_lookup dist_table x (-y)
        ((num_angle_quantization : ℤ) - theta) := by
  unfold NodeLattice.lookupWindow
  simp only []
  rcases hy.lt_or_lt with h | h
  · have h1 : ¬(-y < 0) := by omega
    rw [if_pos h, if_neg h1, abs_neg]
  · have h0 : ¬(y < 0) := by omega
    have h1 : -y < 0 := by omega
    rw [if_neg h0, if_pos h1, abs_neg,
      show (num_angle_quantization : ℤ) - ((num_angle_quantization : ℤ) - theta) = theta by ring]

/-- Oracle stand-in for the C2 counterexample: the distance of a pose from
the origin grows with its y offset, as any real Dubins/Reeds-Shepp table's
entries do between (x, 0, heading 0) and (x, 1, heading 0). -/
def distC2 : Pose → Pose → ℚ := fun p _ => p.2.1

/-- Precomputed lookup table (window 5, four headings) for the C2 claim. -/
def tableC2 : List ℚ := NodeLattice.precomputeDistanceHeuristic distC2 5 4 [0, 1, 2, 3]

/-- Witness for the amended C2 at a concrete in-range triple with positive y. -/
theorem lookup_mirror_symm_witness :
    NodeLattice.lookupWindow 4 5 tableC2 0 1 1 =
      NodeLattice.lookupWindow 4 5 tableC2 0 (-1) ((4 : ℤ) - 1) :=
  lookup_mirror_symm_of_y_ne_zero 4 5 tableC2 0 1 1 (by decide)

/-- CLAIM C2 as stated is false at y = 0: the direct lookup at (0, 0, 0) and
the mirrored lookup at (0, -0, 4 - 0) read different entries of a
precomputed table (theta 4 at y = 0 even aliases into the y = 1 row), so the
universal mirror identity fails for in-range triples with y = 0. -/
theorem lookup_mirror_fails_at_y_zero :
    ¬(NodeLattice.lookupWindow 4 5 tableC2 0 0 0 =
      NodeLattice.lookupWindow 4 5 tableC2 0 (-(0 : ℤ)) ((4 : ℤ) - 0)) := by
  have hx : xOffsets 5 = [-2, -1, 0, 1, 2] := by
    rw [xOffsets_eq]
    decide
  have hy : yOffsets 5 = [0, 1, 2] := by
    rw [yOffsets_eq]
    decide
  have ht : tableC2 =
      [0, 0, 0, 0, 1, 1, 1, 1, 2, 2, 2, 2,
       0, 0, 0, 0, 1, 1, 1, 1, 2, 2, 2, 2,
       0, 0, 0, 0, 1, 1, 1, 1, 2, 2, 2, 2,
       0, 0, 0, 0, 1, 1, 1, 1, 2, 2, 2, 2,
       0, 0, 0, 0, 1, 1, 1, 1, 2, 2, 2, 2] := by
    rw [tableC2, NodeLattice.precomputeDistanceHeuristic, hx, hy]
    decide
  simp only [NodeLattice.lookupWindow, floor_half_nat, ceil_half_nat]
  rw [ht]
  decide

/-- Reading a mapped range at an in-range position. -/
theorem getD_map_range {β : Type} (N : ℕ) (f : ℕ → β) (h : ℕ) (hh : h < N) (d : β) :
    ((List.range N).map f).getD h d = f h := by
  rw [List.getD_eq_getElem?_getD, List.getElem?_map, List.getElem?_range hh]
  rfl

/-- Length of a flat map whose pieces all have the same length. -/
theorem length_flatMap_uniform {α β : Type} (l : List α) (f : α → List β) (m : ℕ)
    (hm : ∀ a, (f a).length = m) : (l.flatMap f).length = l.length * m := by
  induction l with
  | nil => simp
  | cons a l ih =>
    simp only [List.flatMap_cons, List.length_append, ih, List.length_cons, hm]
    ring

/-- Reading a flat map of uniform-length pieces at `i * m + j` reads position
`j` of the i-th piece: the row-major indexing fact behind the lookup table. -/
theorem getD_flatMap_uniform {α β : Type} (l : List α) (f : α → List β) (m : ℕ)
    (hm : ∀ a, (f a).length = m) (i j : ℕ) (hi : i < l.length) (hj : j < m) (d : β) :
    (l.flatMap f).getD (i * m + j) d = (f l[i]).getD j d := by
  induction l generalizing i with
  | nil => simp at hi
  | cons a l ih =>
    cases i with
    | zero =>
      simp only [List.flatMap_cons, zero_mul, zero_add, List.getElem_cons_zero]
      exact List.getD_append _ _ _ _ (by rw [hm]; exact hj)
    | succ i =>
      simp only [List.flatMap_cons, List.getElem_cons_succ]
      rw [List.getD_append_right _ _ _ _ (by rw [hm]; nlinarith [Nat.succ_mul i m]),
        hm, show (i + 1) * m + j - m = i * m + j by rw [Nat.succ_mul]; omega]
      exact ih i (by simpa using hi)

/-- Number of x offsets enumerated by the precompute loop. -/
theorem xOffsets_length (s : ℕ) : (xOffsets s).length = 2 * (s / 2) + 1 := by
  rw [xOffsets_eq, List.length_map, List.length_range]

/-- Number of y offsets enumerated by the precompute loop. -/
theorem yOffsets_length (s : ℕ) : (yOffsets s).length = s / 2 + 1 := by
  rw [yOffsets_eq, List.length_map, List.length_range]

/-- The i-th x offset of the precompute loop. -/
theorem xOffsets_getElem (s i : ℕ) (hi : i < (xOffsets s).length) :
    (xOffsets s)[i] = (i : ℤ) - ((s / 2 : ℕ) : ℤ) := by
  rw [List.getElem_of_eq (xOffsets_eq s) hi, List.getElem_map, List.getElem_range]

/-- The j-th y offset of the precompute loop. -/
theorem yOffsets_getElem (s j : ℕ) (hj : j < (yOffsets s).length) :
    (yOffsets s)[j] = (j : ℤ) := by
  rw [List.getElem_of_eq (yOffsets_eq s) hj, List.getElem_map, List.getElem_range]

/-- CLAIM C3 (amended): for an odd window size, the precompute loop stores,
for every x offset in [-⌊w/2⌋, ⌊w/2⌋] (the loop starts at `ceil(-w/2)`,
which is -⌊w/2⌋), every y offset in [0, ⌊w/2⌋] and every heading bin below
the heading count, the oracle distance from the offset pose at that heading
to the origin pose, in row-major (x, y, heading) order; the flat index used
by `getDistanceHeuristic`, `(x + ⌊w/2⌋) * ⌈w/2⌉ * headingCount +
y * headingCount + heading`, retrieves exactly that entry. -/
theorem precompute_index_retrieves (dist : Pose → Pose → ℚ) (heading_angles : List ℚ)
    (s N : ℕ) (hodd : s % 2 = 1) (x y : ℤ) (h : ℕ)
    (hx1 : -((s / 2 : ℕ) : ℤ) ≤ x) (hx2 : x ≤ ((s / 2 : ℕ) : ℤ))
    (hy1 : 0 ≤ y) (hy2 : y ≤ ((s / 2 : ℕ) : ℤ)) (hh : h < N) :
    tableGet (NodeLattice.precomputeDistanceHeuristic dist s N heading_angles)
        ((x + ((s / 2 : ℕ) : ℤ)) * (((s + 1) / 2 : ℕ) : ℤ) * (N : ℤ) + y * (N : ℤ) + (h : ℤ)) =
      dist ((x : ℚ), (y : ℚ), heading_angles.getD h 0) (0, 0, 0) := by
  have hx0 : (0 : ℤ) ≤ x + ((s / 2 : ℕ) : ℤ) := by omega
  obtain ⟨a, ha⟩ : ∃ a : ℕ, (a : ℤ) = x + ((s / 2 : ℕ) : ℤ) := ⟨_, Int.toNat_of_nonneg hx0⟩
  obtain ⟨b, hb⟩ : ∃ b : ℕ, (b : ℤ) = y := ⟨_, Int.toNat_of_nonneg hy1⟩
  have hsplit : ((s + 1) / 2 : ℕ) = s / 2 + 1 := by omega
  have hidx : (x + ((s / 2 : ℕ) : ℤ)) * (((s + 1) / 2 : ℕ) : ℤ) * (N : ℤ) + y * (N : ℤ) + (h : ℤ)
      = ((a * ((s / 2 + 1) * N) + (b * N + h) : ℕ) : ℤ) := by
    rw [← hb, ← ha, hsplit]
    push_cast
    ring
  rw [hidx]
  unfold tableGet
  rw [if_neg (not_lt.2 (Int.natCast_nonneg _)), Int.toNat_natCast]
  unfold NodeLattice.precomputeDistanceHeuristic
  have hm : ∀ az : ℤ, ((yOffsets s).flatMap fun yy =>
      (List.range N).map fun heading =>
        dist ((az : ℚ), (yy : ℚ), heading_angles.getD heading 0) (0, 0, 0)).length
      = (s / 2 + 1) * N := by
    intro az
    rw [length_flatMap_uniform _ _ N (fun c => by simp), yOffsets_length]
  have hilt : a < (xOffsets s).length := by
    rw [xOffsets_length]
    omega
  have hjlt : b * N + h < (s / 2 + 1) * N := by
    have hj2 : b + 1 ≤ s / 2 + 1 := by omega
    calc b * N + h < b * N + N := by omega
      _ = (b + 1) * N := by ring
      _ ≤ (s / 2 + 1) * N := Nat.mul_le_mul_right N hj2
  rw [getD_flatMap_uniform (xOffsets s) _ ((s / 2 + 1) * N) hm a (b * N + h) hilt hjlt 0]
  rw [xOffsets_getElem s a hilt]
  have hxel : (a : ℤ) - ((s / 2 : ℕ) : ℤ) = x := by omega
  rw [hxel]
  have hblt : b < (yOffsets s).length := by
    rw [yOffsets_length]
    omega
  rw [getD_flatMap_uniform (yOffsets s) _ N (fun c => by simp) b h hblt hh 0]
  rw [yOffsets_getElem s b hblt, hb]
  rw [getD_map_range N _ h hh 0]

/-- Oracle stand-in for the C3 witness and counterexample: distance determined
by the x offset of the queried pose. -/
def distC3 : Pose → Pose → ℚ := fun p _ => p.1

/-- Witness for the amended C3: window 3 (odd), one heading, offset (1, 1),
heading bin 0; the flat index retrieves the entry for that offset. -/
theorem precompute_index_retrieves_witness :
    tableGet (NodeLattice.precomputeDistanceHeuristic distC3 3 1 [0])
        (((1 : ℤ) + ((3 / 2 : ℕ) : ℤ)) * (((3 + 1) / 2 : ℕ) : ℤ) * ((1 : ℕ) : ℤ) +
          (1 : ℤ) * ((1 : ℕ) : ℤ) + ((0 : ℕ) : ℤ)) =
      distC3 (((1 : ℤ) : ℚ), ((1 : ℤ) : ℚ), ([0] : List ℚ).getD 0 0) (0, 0, 0) :=
  precompute_index_retrieves distC3 [0] 3 1 (by decide) 1 1 0 (by decide) (by decide)
    (by decide) (by decide) (by decide)

/-- CLAIM C3 as stated is false: (a) for windowSize 3 the loop's x offsets
start at `ceil(-3/2) = -1`, so the offset `-⌈3/2⌉ = -2` the claim includes is
never stored; (b) for an even windowSize (here 2) the claimed flat index does
not retrieve the entry of the given offsets — at offset (0, 0, heading 0) it
retrieves the entry stored for x offset -1. -/
theorem precompute_x_range_counterexample :
    (-⌈((3 : ℕ) : ℚ) / 2⌉ ∉ xOffsets 3) ∧
    tableGet (NodeLattice.precomputeDistanceHeuristic distC3 2 1 [0])
        (((0 : ℤ) + ((2 / 2 : ℕ) : ℤ)) * (((2 + 1) / 2 : ℕ) : ℤ) * ((1 : ℕ) : ℤ) +
          (0 : ℤ) * ((1 : ℕ) : ℤ) + ((0 : ℕ) : ℤ)) ≠
      distC3 (((0 : ℤ) : ℚ), ((0 : ℤ) : ℚ), ([0] : List ℚ).getD 0 0) (0, 0, 0) := by
  constructor
  · rw [ceil_half_nat, xOffsets_eq]
    decide
  · have hx : xOffsets 2 = [-1, 0, 1] := by
      rw [xOffsets_eq]
      decide
    have hy : yOffsets 2 = [0, 1] := by
      rw [yOffsets_eq]
      decide
    rw [NodeLattice.precomputeDistanceHeuristic, hx, hy]
    decide
